import Mathlib

/-!
Verification of `orangewidget/utils/visual_settings_dlg.py`.

The module builds a Qt dialog from a nested settings map
(box name → item label → parameter name → (value range, default value)),
keeps a registry `__controls : key ↦ (widget handle, default value)`,
accumulates user edits in `__changed_settings : key ↦ value`, and offers
`apply_settings` and a reset button.

Shallow embedding choices:
* Python dicts (insertion ordered, assignment overwrites in place) are
  association lists with `dictGet` / `dictSet`.
* Qt widgets are mutable objects referenced from the registry; we model the
  heap of widgets as an association list `widgets : Nat ↦ Control` and the
  registry stores widget ids, mirroring Python reference semantics
  (the registry dict itself is never written after construction, while the
  widgets it points to change).
* Toolkit setters (`setCurrentText`, `setValue`, `setChecked`) are modelled
  as plain assignment of the displayed value; a value of the wrong runtime
  type for the widget is a toolkit-level `TypeError`, modelled as `none`.
* Exceptions (`KeyError` from `self.__controls[key]`, `NotImplementedError`
  from the single-dispatch fallbacks) are explicit error results; an
  operation that raises midway returns the state reached so far, mirroring
  Python's in-place mutation before the raise.
-/

/-- Key triples `(box, label, parameter)` addressing one control
(`KeyType = Tuple[str, str, str]` in the source). -/
abbrev Key := String × String × String

/-- Runtime values flowing through the dialog
(`ValueType = Union[str, int, bool]`); `other` stands for a value of any
unsupported runtime type, identified by its type name, so that the
`NotImplementedError` dispatch fallback is representable. -/
inductive V where
  | str (s : String)
  | int (n : Int)
  | bool (b : Bool)
  | other (typeName : String)
deriving DecidableEq

/-- Allowed-value ranges (`ValueRangeType = Union[Iterable, None]`):
a list of strings for combo items, a Python `range(start, stop, step)`
object for spin boxes, or `None`. -/
inductive VRange where
  | strs (items : List String)
  | range (start stop step : Int)
  | none
deriving DecidableEq

/-- Widget state: the three control kinds the module constructs
(`QComboBox`, `QSpinBox`, `QCheckBox`) with their displayed values. -/
inductive Control where
  | combo (items : List String) (currentText : String)
  | spin (minimum maximum singleStep value : Int)
  | check (text : String) (checked : Bool)
deriving DecidableEq

/-- Errors raised while building controls: the single-dispatch fallback of
`_add_control` (`NotImplementedError`) and toolkit-level type errors when
the range value does not fit the chosen handler. -/
inductive CtrlError where
  | notImplemented
  | typeErr
deriving DecidableEq

/-- Errors raised while assigning to controls: `KeyError` from
`self.__controls[key]`, a toolkit `TypeError` for a value of the wrong
runtime type, and `badHandle` for a dangling widget id (an artefact of the
heap model, never reachable from a constructed dialog). -/
inductive SetErr where
  | keyError
  | typeError
  | badHandle
deriving DecidableEq

/-- Python dict lookup `m[k]` as an association-list search. -/
def dictGet {α β : Type} [DecidableEq α] (m : List (α × β)) (k : α) : Option β :=
  match m with
  | [] => Option.none
  | (k', v) :: t => if k' = k then some v else dictGet t k

/-- Python dict assignment `m[k] = v`: overwrite in place, else append. -/
def dictSet {α β : Type} [DecidableEq α] (m : List (α × β)) (k : α) (v : β) :
    List (α × β) :=
  match m with
  | [] => [(k, v)]
  | (k', v') :: t => if k' = k then (k, v) :: t else (k', v') :: dictSet t k v

/-- `_add_control(default_value, values, box, key, signal)`: single dispatch
on the runtime type of `default_value`.  The `str` handler builds a
`QComboBox` with `addItems(values)` and `setCurrentText(value)`; the `int`
handler builds a `QSpinBox(minimum=values.start, maximum=values.stop,
singleStep=values.step, value=value)`; the `bool` handler builds a
`QCheckBox(text=f"<param> ", checked=value)`; the fallback raises
`NotImplementedError`.  A range value that does not fit the dispatched
handler is a toolkit/attribute error (`typeErr`). -/
def _add_control (value : V) (values : VRange) (key : Key) :
    Except CtrlError Control :=
  match value, values with
  | .str s, .strs items => .ok (.combo items s)
  | .str _, _ => .error .typeErr
  | .int n, .range a b st => .ok (.spin a b st n)
  | .int _, _ => .error .typeErr
  | .bool b, _ => .ok (.check (key.2.2 ++ " ") b)
  | .other _, _ => .error .notImplemented

/-- `_set_control_value(control, value)`: single dispatch on the control's
type, pushing the value into the widget (`setCurrentText` / `setValue` /
`setChecked`).  A value of the wrong runtime type for the widget is a
toolkit-level `TypeError`, modelled as `none`. -/
def _set_control_value (c : Control) (v : V) : Option Control :=
  match c, v with
  | .combo items _, .str s => some (.combo items s)
  | .spin a b st _, .int n => some (.spin a b st n)
  | .check t _, .bool b => some (.check t b)
  | _, _ => Option.none

/-- The mutable state of a `SettingsDialog`: the control registry
`__controls : key ↦ (widget id, default value)`, the heap of widgets the
registry points into, and `__changed_settings : key ↦ value`. -/
structure SettingsDialog where
  controls : List (Key × Nat × V)
  widgets : List (Nat × Control)
  changed_settings : List (Key × V)
deriving DecidableEq

/-- Input settings map: box name → item label → parameter name →
(value range, default value), insertion ordered. -/
abbrev Settings := List (String × List (String × List (String × VRange × V)))

/-- Accumulator while `__initialize` walks the settings map: the registry
and widget heap built so far plus the next fresh widget id. -/
structure BuildState where
  controls : List (Key × Nat × V)
  widgets : List (Nat × Control)
  nextId : Nat
deriving DecidableEq

/-- `__add_row(form, box_name, label, settings)`: one control per
parameter; each new widget is registered under `(box_name, label,
parameter)` together with its default value. -/
def add_row (st : BuildState) (box_name label : String)
    (settings : List (String × VRange × V)) : Except CtrlError BuildState :=
  match settings with
  | [] => .ok st
  | (parameter, values, default_value) :: rest =>
    match _add_control default_value values (box_name, label, parameter) with
    | .error e => .error e
    | .ok control =>
      add_row
        { controls := dictSet st.controls (box_name, label, parameter)
            (st.nextId, default_value)
          widgets := st.widgets ++ [(st.nextId, control)]
          nextId := st.nextId + 1 }
        box_name label rest

/-- Inner loop of `__initialize`: all rows of one box. -/
def add_box (st : BuildState) (box_name : String)
    (items : List (String × List (String × VRange × V))) :
    Except CtrlError BuildState :=
  match items with
  | [] => .ok st
  | (label, values) :: rest =>
    match add_row st box_name label values with
    | .error e => .error e
    | .ok st' => add_box st' box_name rest

/-- `__initialize(settings)`: walk every box of the settings map. -/
def add_boxes (st : BuildState) (settings : Settings) :
    Except CtrlError BuildState :=
  match settings with
  | [] => .ok st
  | (box_name, items) :: rest =>
    match add_box st box_name items with
    | .error e => .error e
    | .ok st' => add_boxes st' rest

/-- `SettingsDialog.__init__`: empty registry and changed map, then
`__initialize(settings)` populates the registry. -/
def mkDialog (settings : Settings) : Except CtrlError SettingsDialog :=
  match add_boxes { controls := [], widgets := [], nextId := 0 } settings with
  | .error e => .error e
  | .ok st =>
    .ok { controls := st.controls, widgets := st.widgets,
          changed_settings := [] }

/-- One iteration of the `apply_settings` loop:
`_set_control_value(self.__controls[key][0], value)`. -/
def applyOne (d : SettingsDialog) (key : Key) (value : V) :
    SettingsDialog × Option SetErr :=
  match dictGet d.controls key with
  | Option.none => (d, some .keyError)
  | some (wid, _) =>
    match dictGet d.widgets wid with
    | Option.none => (d, some .badHandle)
    | some c =>
      match _set_control_value c value with
      | Option.none => (d, some .typeError)
      | some c' => ({ d with widgets := dictSet d.widgets wid c' },
                    Option.none)

/-- `apply_settings(settings)`: push each value into the control matching
its key, in order; a raised exception stops the loop, keeping the updates
already performed. -/
def apply_settings (d : SettingsDialog) (pairs : List (Key × V)) :
    SettingsDialog × Option SetErr :=
  match pairs with
  | [] => (d, Option.none)
  | (k, v) :: rest =>
    match applyOne d k v with
    | (d', Option.none) => apply_settings d' rest
    | (d', some e) => (d', some e)

/-- The loop of `__reset`: for each changed key,
`_set_control_value(*self.__controls[key])`, i.e. push the registered
default value back into the registered control. -/
def resetKeys (d : SettingsDialog) (keys : List Key) :
    SettingsDialog × Option SetErr :=
  match keys with
  | [] => (d, Option.none)
  | k :: rest =>
    match dictGet d.controls k with
    | Option.none => (d, some .keyError)
    | some (_, default_value) =>
      match applyOne d k default_value with
      | (d', Option.none) => resetKeys d' rest
      | (d', some e) => (d', some e)

/-- `__reset`: restore every changed control to its registered default,
then clear the changed map (the clearing happens only after the loop
finishes, so an exception leaves the map intact). -/
def reset (d : SettingsDialog) : SettingsDialog × Option SetErr :=
  match resetKeys d (d.changed_settings.map Prod.fst) with
  | (d', Option.none) => ({ d' with changed_settings := [] }, Option.none)
  | (d', some e) => (d', some e)

/-- `__on_setting_changed(key, value)`:
`self.__changed_settings[key] = value`. -/
def on_setting_changed (d : SettingsDialog) (key : Key) (value : V) :
    SettingsDialog :=
  { d with changed_settings := dictSet d.changed_settings key value }

/-- The value a control displays (`currentText` / `value` / `isChecked`). -/
def displayedValue : Control → V
  | .combo _ t => .str t
  | .spin _ _ _ v => .int v
  | .check _ b => .bool b

/-- The value displayed by the control registered under `k`, if any. -/
def displayed (d : SettingsDialog) (k : Key) : Option V :=
  match dictGet d.controls k with
  | Option.none => Option.none
  | some (wid, _) =>
    match dictGet d.widgets wid with
    | Option.none => Option.none
    | some c => some (displayedValue c)

/-- Whether a value has the runtime type the control's setter accepts. -/
def kindMatches (c : Control) (v : V) : Bool :=
  match c, v with
  | .combo _ _, .str _ => true
  | .spin _ _ _ _, .int _ => true
  | .check _ _, .bool _ => true
  | _, _ => false

/-- No duplicates in a list of widget ids. -/
def nodupNat : List Nat → Bool
  | [] => true
  | x :: t => decide (x ∉ t) && nodupNat t

/-- A pair `(key, value)` is addressable: the key is registered, its widget
exists in the heap, and the value's runtime type fits that widget. -/
def regCompat (d : SettingsDialog) (p : Key × V) : Bool :=
  match dictGet d.controls p.1 with
  | some (wid, _) =>
    match dictGet d.widgets wid with
    | some c => kindMatches c p.2
    | Option.none => false
  | Option.none => false

/-- Well-formed dialog state: distinct keys point to distinct widgets, and
every registry entry has a live widget whose kind fits the registered
default value.  Every dialog produced by `mkDialog` satisfies this. -/
def wfDialog (d : SettingsDialog) : Bool :=
  nodupNat (d.controls.map (fun e => e.2.1)) &&
  d.controls.all (fun e =>
    match dictGet d.widgets e.2.1 with
    | some c => kindMatches c e.2.2
    | Option.none => false)

/-- The value the last pair of `pairs` with key `k` carries, if any. -/
def lastVal (pairs : List (Key × V)) (k : Key) : Option V :=
  match pairs with
  | [] => Option.none
  | (k', v) :: rest =>
    match lastVal rest k with
    | some v' => some v'
    | Option.none => if k' = k then some v else Option.none

/-- `overlay new old`: `new` where present, else `old`. -/
def overlay (new old : Option V) : Option V :=
  match new with
  | some v => some v
  | Option.none => old

/-- Number of entries of the changed-settings map carrying key `k`. -/
def countKey (m : List (Key × V)) (k : Key) : Nat :=
  match m with
  | [] => 0
  | (k', _) :: t => (if k' = k then 1 else 0) + countKey t k

/-- Host widget for `VisualSettingsDialog`: `visual_settings` is `some`
exactly when `hasattr(master, "visual_settings")` holds, carrying the
snapshot's `(key, value)` items. -/
structure Master where
  visual_settings : Option (List (Key × V))
deriving DecidableEq

/-- State of a constructed `VisualSettingsDialog`: the underlying dialog
plus which host connections `__init__` has established
(`setting_changed.connect(master.set_visual_settings)` and
`master.openVisualSettingsClicked.connect(self.show_dlg)`). -/
structure VisualSettingsDialog where
  dialog : SettingsDialog
  set_visual_settings_connected : Bool
  open_clicked_connected : Bool
deriving DecidableEq

/-- `VisualSettingsDialog.__init__(master, settings)`: build the base
dialog, connect the host's handler to `setting_changed`, apply the host's
`visual_settings` snapshot when present, then connect
`openVisualSettingsClicked` to `show_dlg`.  An exception inside
`apply_settings` propagates before the last connection is made. -/
def mkVisualDialog (master : Master) (settings : Settings) :
    Except CtrlError (VisualSettingsDialog × Option SetErr) :=
  match mkDialog settings with
  | .error e => .error e
  | .ok base =>
    match master.visual_settings with
    | Option.none =>
      .ok ({ dialog := base, set_visual_settings_connected := true,
             open_clicked_connected := true }, Option.none)
    | some vs =>
      match apply_settings base vs with
      | (d', Option.none) =>
        .ok ({ dialog := d', set_visual_settings_connected := true,
               open_clicked_connected := true }, Option.none)
      | (d', some e) =>
        .ok ({ dialog := d', set_visual_settings_connected := true,
               open_clicked_connected := false }, some e)


/-! ### Dictionary lemmas -/

theorem dictGet_dictSet_self {α β : Type} [DecidableEq α]
    (m : List (α × β)) (k : α) (v : β) :
    dictGet (dictSet m k v) k = some v := by
  induction m with
  | nil => simp [dictGet, dictSet]
  | cons h t ih =>
    obtain ⟨k', v'⟩ := h
    by_cases hk : k' = k
    · subst hk
      simp [dictGet, dictSet]
    · simp [dictGet, dictSet, hk, ih]

theorem dictGet_dictSet_ne {α β : Type} [DecidableEq α]
    (m : List (α × β)) (k k' : α) (v : β) (hne : k' ≠ k) :
    dictGet (dictSet m k v) k' = dictGet m k' := by
  have hkk : ¬ k = k' := fun h => hne h.symm
  induction m with
  | nil => simp [dictGet, dictSet, hkk]
  | cons hd t ih =>
    obtain ⟨k0, v0⟩ := hd
    by_cases hk : k0 = k
    · subst hk
      simp [dictGet, dictSet, hkk]
    · simp [dictGet, dictSet, hk, ih]

theorem dictGet_mem {α β : Type} [DecidableEq α]
    (m : List (α × β)) (k : α) (v : β) (h : dictGet m k = some v) :
    (k, v) ∈ m := by
  induction m with
  | nil => simp [dictGet] at h
  | cons hd t ih =>
    obtain ⟨k0, v0⟩ := hd
    by_cases hk : k0 = k
    · subst hk
      simp [dictGet] at h
      simp [h]
    · simp [dictGet, hk] at h
      simp [ih h]

theorem dictGet_eq_none_iff {α β : Type} [DecidableEq α]
    (m : List (α × β)) (k : α) :
    dictGet m k = Option.none ↔ k ∉ m.map Prod.fst := by
  induction m with
  | nil => simp [dictGet]
  | cons hd t ih =>
    obtain ⟨k0, v0⟩ := hd
    by_cases hk : k0 = k
    · subst hk
      simp [dictGet]
    · rw [List.map_cons]
      simp only [dictGet, if_neg hk, ih, List.mem_cons]
      constructor
      · intro h hor
        cases hor with
        | inl h1 => exact hk h1.symm
        | inr h2 => exact h h2
      · intro h h2
        exact h (Or.inr h2)

theorem countKey_dictSet (m : List (Key × V)) (k : Key) (v : V)
    (h : countKey m k ≤ 1) : countKey (dictSet m k v) k = 1 := by
  induction m with
  | nil => simp [countKey, dictSet]
  | cons hd t ih =>
    obtain ⟨k0, v0⟩ := hd
    by_cases hk : k0 = k
    · subst hk
      simp [countKey] at h
      simp [countKey, dictSet, h]
    · simp [countKey, hk] at h
      simp [countKey, dictSet, hk, ih h]

/-! ### The widget heap: lookups through the registry -/

theorem dictGet_wid_mem (m : List (Key × Nat × V)) (k : Key)
    (wid : Nat) (dv : V) (h : dictGet m k = some (wid, dv)) :
    wid ∈ m.map (fun e => e.2.1) := by
  induction m with
  | nil => simp [dictGet] at h
  | cons hd t ih =>
    obtain ⟨k0, w0, v0⟩ := hd
    by_cases hk : k0 = k
    · subst hk
      simp [dictGet] at h
      simp [h.1]
    · simp [dictGet, hk] at h
      simp [ih h]

theorem nodupNat_cons (x : Nat) (t : List Nat) :
    nodupNat (x :: t) = true ↔ x ∉ t ∧ nodupNat t = true := by
  simp [nodupNat]

theorem dictGet_wid_inj (m : List (Key × Nat × V))
    (hnd : nodupNat (m.map (fun e => e.2.1)) = true)
    (k1 k2 : Key) (wid1 wid2 : Nat) (d1 d2 : V)
    (h1 : dictGet m k1 = some (wid1, d1))
    (h2 : dictGet m k2 = some (wid2, d2))
    (hne : k1 ≠ k2) : wid1 ≠ wid2 := by
  induction m with
  | nil => simp [dictGet] at h1
  | cons hd t ih =>
    obtain ⟨k0, w0, v0⟩ := hd
    rw [List.map_cons, nodupNat_cons] at hnd
    obtain ⟨hc, hnd'⟩ := hnd
    by_cases hk1 : k0 = k1
    · subst hk1
      simp [dictGet] at h1
      by_cases hk2 : k0 = k2
      · exact absurd hk2 hne
      · simp [dictGet, hk2] at h2
        have hmem := dictGet_wid_mem t k2 wid2 d2 h2
        intro hw
        exact hc (show w0 ∈ List.map (fun e => e.2.1) t by
          rw [h1.1, hw]; exact hmem)
    · by_cases hk2 : k0 = k2
      · subst hk2
        simp [dictGet] at h2
        simp [dictGet, hk1] at h1
        have hmem := dictGet_wid_mem t k1 wid1 d1 h1
        intro hw
        exact hc (show w0 ∈ List.map (fun e => e.2.1) t by
          rw [h2.1, ← hw]; exact hmem)
      · simp [dictGet, hk1] at h1
        simp [dictGet, hk2] at h2
        exact ih hnd' h1 h2

/-! ### Structure-update projections -/

theorem update_widgets_controls (d : SettingsDialog)
    (w : List (Nat × Control)) :
    ({ d with widgets := w } : SettingsDialog).controls = d.controls := rfl

theorem update_widgets_changed (d : SettingsDialog)
    (w : List (Nat × Control)) :
    ({ d with widgets := w } : SettingsDialog).changed_settings =
      d.changed_settings := rfl

theorem update_widgets_widgets (d : SettingsDialog)
    (w : List (Nat × Control)) :
    ({ d with widgets := w } : SettingsDialog).widgets = w := rfl

/-! ### Setter behaviour -/

theorem set_val_of_kindMatches (c : Control) (v : V)
    (h : kindMatches c v = true) :
    ∃ c', _set_control_value c v = some c' ∧ displayedValue c' = v ∧
      ∀ x, kindMatches c' x = kindMatches c x := by
  cases c <;> cases v <;> first
  | exact ⟨_, rfl, rfl, fun x => by cases x <;> rfl⟩
  | simp [kindMatches] at h

theorem applyOne_controls (d : SettingsDialog) (k : Key) (v : V) :
    (applyOne d k v).1.controls = d.controls ∧
    (applyOne d k v).1.changed_settings = d.changed_settings := by
  cases hc : dictGet d.controls k with
  | none => simp [applyOne, hc]
  | some e =>
    obtain ⟨wid, dv⟩ := e
    cases hw : dictGet d.widgets wid with
    | none => simp [applyOne, hc, hw]
    | some c =>
      cases hs : _set_control_value c v with
      | none => simp [applyOne, hc, hw, hs]
      | some c' => simp [applyOne, hc, hw, hs]

theorem apply_settings_shape (d : SettingsDialog) (pairs : List (Key × V)) :
    (apply_settings d pairs).1.controls = d.controls ∧
    (apply_settings d pairs).1.changed_settings = d.changed_settings := by
  induction pairs generalizing d with
  | nil => exact ⟨rfl, rfl⟩
  | cons p rest ih =>
    obtain ⟨k, v⟩ := p
    have hpre := applyOne_controls d k v
    cases happ : applyOne d k v with
    | mk d' e =>
      rw [happ] at hpre
      cases e with
      | none =>
        obtain ⟨h1, h2⟩ := ih d'
        simp only [apply_settings, happ]
        exact ⟨h1.trans hpre.1, h2.trans hpre.2⟩
      | some err =>
        simp only [apply_settings, happ]
        exact ⟨hpre.1, hpre.2⟩

theorem resetKeys_shape (d : SettingsDialog) (keys : List Key) :
    (resetKeys d keys).1.controls = d.controls ∧
    (resetKeys d keys).1.changed_settings = d.changed_settings := by
  induction keys generalizing d with
  | nil => exact ⟨rfl, rfl⟩
  | cons k rest ih =>
    cases hc : dictGet d.controls k with
    | none => simp [resetKeys, hc]
    | some e =>
      obtain ⟨wid, dv⟩ := e
      have hpre := applyOne_controls d k dv
      cases happ : applyOne d k dv with
      | mk d' err =>
        rw [happ] at hpre
        cases err with
        | none =>
          obtain ⟨h1, h2⟩ := ih d'
          simp only [resetKeys, hc, happ]
          exact ⟨h1.trans hpre.1, h2.trans hpre.2⟩
        | some e2 =>
          simp only [resetKeys, hc, happ]
          exact ⟨hpre.1, hpre.2⟩

theorem reset_controls_eq (d : SettingsDialog) :
    (reset d).1.controls = d.controls := by
  rw [reset]
  have hsh := resetKeys_shape d (d.changed_settings.map Prod.fst)
  cases hres : resetKeys d (d.changed_settings.map Prod.fst) with
  | mk d' e =>
    rw [hres] at hsh
    cases e with
    | none => exact hsh.1
    | some err => exact hsh.1

/-! ### Preservation of well-formedness under widget updates -/

theorem wfDialog_update (d : SettingsDialog) (wid : Nat) (c c' : Control)
    (hw : dictGet d.widgets wid = some c)
    (hk : ∀ x, kindMatches c' x = kindMatches c x)
    (hwf : wfDialog d = true) :
    wfDialog { d with widgets := dictSet d.widgets wid c' } = true := by
  rw [wfDialog, Bool.and_eq_true] at hwf ⊢
  obtain ⟨hnd, hall⟩ := hwf
  refine ⟨hnd, ?_⟩
  rw [List.all_eq_true] at hall ⊢
  intro e he
  have h1 := hall e he
  rw [update_widgets_widgets]
  by_cases hww : e.2.1 = wid
  · rw [hww] at h1 ⊢
    rw [hw] at h1
    rw [dictGet_dictSet_self]
    simp only at h1 ⊢
    rw [hk]
    exact h1
  · rw [dictGet_dictSet_ne _ _ _ _ hww]
    exact h1

theorem regCompat_update (d : SettingsDialog) (wid : Nat) (c c' : Control)
    (p : Key × V) (hw : dictGet d.widgets wid = some c)
    (hk : ∀ x, kindMatches c' x = kindMatches c x)
    (h : regCompat d p = true) :
    regCompat { d with widgets := dictSet d.widgets wid c' } p = true := by
  rw [regCompat] at h ⊢
  rw [update_widgets_controls, update_widgets_widgets]
  cases hc : dictGet d.controls p.1 with
  | none => rw [hc] at h; simp at h
  | some entry =>
    obtain ⟨w2, dv⟩ := entry
    rw [hc] at h
    simp only [] at h ⊢
    by_cases hww : w2 = wid
    · subst hww
      rw [hw] at h
      rw [dictGet_dictSet_self]
      simp only [] at h ⊢
      rw [hk]
      exact h
    · rw [dictGet_dictSet_ne _ _ _ _ hww]
      exact h

theorem displayed_update_self (d : SettingsDialog) (wid : Nat)
    (c' : Control) (k : Key) (dv : V)
    (hc : dictGet d.controls k = some (wid, dv)) :
    displayed { d with widgets := dictSet d.widgets wid c' } k =
      some (displayedValue c') := by
  rw [displayed, update_widgets_controls, update_widgets_widgets, hc]
  simp only []
  rw [dictGet_dictSet_self]

theorem displayed_update_other (d : SettingsDialog) (wid : Nat)
    (c' : Control) (k k0 : Key) (dv : V)
    (hnd : nodupNat (d.controls.map (fun e => e.2.1)) = true)
    (hc : dictGet d.controls k0 = some (wid, dv))
    (hne : k ≠ k0) :
    displayed { d with widgets := dictSet d.widgets wid c' } k =
      displayed d k := by
  rw [displayed, displayed, update_widgets_controls, update_widgets_widgets]
  cases hck : dictGet d.controls k with
  | none => rfl
  | some e2 =>
    obtain ⟨wid2, dv2⟩ := e2
    have hwne : wid2 ≠ wid :=
      dictGet_wid_inj d.controls hnd k k0 wid2 wid dv2 dv hck hc hne
    simp only []
    rw [dictGet_dictSet_ne _ _ _ _ hwne]

/-! ### The apply_settings loop -/

theorem applySpecAux (pairs : List (Key × V)) :
    ∀ d : SettingsDialog, wfDialog d = true →
    (∀ p ∈ pairs, regCompat d p = true) →
    (apply_settings d pairs).2 = Option.none ∧
    wfDialog (apply_settings d pairs).1 = true ∧
    ∀ k, displayed (apply_settings d pairs).1 k =
      overlay (lastVal pairs k) (displayed d k) := by
  induction pairs with
  | nil =>
    intro d hwf _
    refine ⟨rfl, hwf, ?_⟩
    intro k
    simp [apply_settings, lastVal, overlay]
  | cons p rest ih =>
    intro d hwf hreg
    obtain ⟨k0, v0⟩ := p
    have hp := hreg (k0, v0) (List.mem_cons_self _ _)
    rw [regCompat] at hp
    simp only [] at hp
    cases hc : dictGet d.controls k0 with
    | none => rw [hc] at hp; simp at hp
    | some entry =>
      obtain ⟨wid, dv⟩ := entry
      rw [hc] at hp
      simp only [] at hp
      cases hwdg : dictGet d.widgets wid with
      | none => rw [hwdg] at hp; simp at hp
      | some c =>
        rw [hwdg] at hp
        simp only [] at hp
        obtain ⟨c', hset, hdispv, hkind⟩ := set_val_of_kindMatches c v0 hp
        have happ : applyOne d k0 v0 =
            ({ d with widgets := dictSet d.widgets wid c' }, Option.none) := by
          simp [applyOne, hc, hwdg, hset]
        have hwf' := wfDialog_update d wid c c' hwdg hkind hwf
        have hreg' : ∀ q ∈ rest,
            regCompat { d with widgets := dictSet d.widgets wid c' } q
              = true := by
          intro q hq
          exact regCompat_update d wid c c' q hwdg hkind
            (hreg q (List.mem_cons_of_mem _ hq))
        obtain ⟨he, hwfr, hdisp2⟩ := ih _ hwf' hreg'
        have hstep : apply_settings d ((k0, v0) :: rest) =
            apply_settings { d with widgets := dictSet d.widgets wid c' }
              rest := by
          simp only [apply_settings, happ]
        rw [hstep]
        refine ⟨he, hwfr, ?_⟩
        intro k
        rw [hdisp2 k]
        cases hl : lastVal rest k with
        | some v' =>
          have h1 : lastVal ((k0, v0) :: rest) k = some v' := by
            simp [lastVal, hl]
          rw [h1]
          simp only [overlay]
        | none =>
          by_cases hkk : k0 = k
          · subst hkk
            have h1 : lastVal ((k0, v0) :: rest) k0 = some v0 := by
              simp [lastVal, hl]
            rw [h1]
            simp only [overlay]
            rw [displayed_update_self d wid c' k0 dv hc, hdispv]
          · have h1 : lastVal ((k0, v0) :: rest) k = Option.none := by
              simp [lastVal, hl, hkk]
            rw [h1]
            simp only [overlay]
            have hnd : nodupNat (d.controls.map (fun e => e.2.1)) = true := by
              rw [wfDialog, Bool.and_eq_true] at hwf
              exact hwf.1
            exact displayed_update_other d wid c' k k0 dv hnd hc
              (fun h => hkk h.symm)

theorem apply_settings_append (d : SettingsDialog) (xs ys : List (Key × V))
    (h : (apply_settings d xs).2 = Option.none) :
    apply_settings d (xs ++ ys) =
      apply_settings (apply_settings d xs).1 ys := by
  induction xs generalizing d with
  | nil => simp [apply_settings]
  | cons p t ih =>
    obtain ⟨k, v⟩ := p
    cases happ : applyOne d k v with
    | mk d' e =>
      cases e with
      | none =>
        rw [List.cons_append]
        simp only [apply_settings, happ] at h ⊢
        exact ih d' h
      | some err =>
        simp [apply_settings, happ] at h

/-! ### The reset loop -/

theorem displayed_update_changed (d : SettingsDialog) (cs : List (Key × V))
    (k : Key) :
    displayed { d with changed_settings := cs } k = displayed d k := rfl

theorem resetKeysSpecAux (keys : List Key) :
    ∀ d : SettingsDialog, wfDialog d = true →
    (∀ k ∈ keys, (dictGet d.controls k).isSome = true) →
    (resetKeys d keys).2 = Option.none ∧
    wfDialog (resetKeys d keys).1 = true ∧
    (∀ k, k ∈ keys → displayed (resetKeys d keys).1 k =
      (dictGet d.controls k).map (fun e => e.2)) ∧
    (∀ k, k ∉ keys → displayed (resetKeys d keys).1 k = displayed d k) := by
  induction keys with
  | nil =>
    intro d hwf _
    refine ⟨rfl, hwf, ?_, ?_⟩
    · intro k hk
      simp at hk
    · intro k _
      rfl
  | cons k0 rest ih =>
    intro d hwf hkeys
    have hk0 := hkeys k0 (List.mem_cons_self _ _)
    cases hc : dictGet d.controls k0 with
    | none => rw [hc] at hk0; simp at hk0
    | some entry =>
      obtain ⟨wid, dv⟩ := entry
      have hmem : (k0, (wid, dv)) ∈ d.controls := dictGet_mem _ _ _ hc
      have hwf2 := hwf
      rw [wfDialog, Bool.and_eq_true] at hwf2
      obtain ⟨hnd, hall⟩ := hwf2
      rw [List.all_eq_true] at hall
      have hkm := hall (k0, (wid, dv)) hmem
      simp only [] at hkm
      cases hwdg : dictGet d.widgets wid with
      | none => rw [hwdg] at hkm; simp at hkm
      | some c =>
        rw [hwdg] at hkm
        simp only [] at hkm
        obtain ⟨c', hset, hdispv, hkind⟩ := set_val_of_kindMatches c dv hkm
        have happ : applyOne d k0 dv =
            ({ d with widgets := dictSet d.widgets wid c' }, Option.none) := by
          simp [applyOne, hc, hwdg, hset]
        have hwf' := wfDialog_update d wid c c' hwdg hkind hwf
        have hkeys' : ∀ k ∈ rest,
            (dictGet ({ d with widgets := dictSet d.widgets wid c' } :
              SettingsDialog).controls k).isSome = true := by
          intro k hk
          rw [update_widgets_controls]
          exact hkeys k (List.mem_cons_of_mem _ hk)
        obtain ⟨he, hwfr, hin, hout⟩ := ih _ hwf' hkeys'
        have hstep : resetKeys d (k0 :: rest) =
            resetKeys { d with widgets := dictSet d.widgets wid c' } rest := by
          simp only [resetKeys, hc, happ]
        rw [hstep]
        refine ⟨he, hwfr, ?_, ?_⟩
        · intro k hk
          rw [List.mem_cons] at hk
          by_cases hkr : k ∈ rest
          · rw [hin k hkr, update_widgets_controls]
          · have hk0eq : k = k0 := hk.resolve_right hkr
            subst hk0eq
            rw [hout k hkr,
              displayed_update_self d wid c' k dv hc, hdispv, hc]
            rfl
        · intro k hk
          have hkne : k ≠ k0 := fun h => hk (h ▸ List.mem_cons_self _ _)
          have hkr : k ∉ rest := fun h => hk (List.mem_cons_of_mem _ h)
          rw [hout k hkr]
          exact displayed_update_other d wid c' k k0 dv hnd hc hkne

theorem key_mem_of_isSome (m : List (Key × V)) (k : Key)
    (h : (dictGet m k).isSome = true) : k ∈ m.map Prod.fst := by
  by_contra hcon
  rw [(dictGet_eq_none_iff m k).mpr hcon] at h
  simp at h

theorem resetSpecAux (d : SettingsDialog)
    (hwf : wfDialog d = true)
    (hch : ∀ p ∈ d.changed_settings, (dictGet d.controls p.1).isSome = true) :
    (reset d).2 = Option.none ∧
    (reset d).1.changed_settings = [] ∧
    (∀ k, (dictGet d.changed_settings k).isSome = true →
      displayed (reset d).1 k = (dictGet d.controls k).map (fun e => e.2)) ∧
    (∀ k, dictGet d.changed_settings k = Option.none →
      displayed (reset d).1 k = displayed d k) := by
  have hkeys : ∀ k ∈ d.changed_settings.map Prod.fst,
      (dictGet d.controls k).isSome = true := by
    intro k hk
    rw [List.mem_map] at hk
    obtain ⟨p, hp, hpk⟩ := hk
    subst hpk
    exact hch p hp
  obtain ⟨he, hwfr, hin, hout⟩ :=
    resetKeysSpecAux (d.changed_settings.map Prod.fst) d hwf hkeys
  cases hres : resetKeys d (d.changed_settings.map Prod.fst) with
  | mk d' e =>
    rw [hres] at he hin hout
    simp only [] at he
    subst he
    have hred : reset d = ({ d' with changed_settings := [] },
        Option.none) := by
      simp only [reset, hres]
    rw [hred]
    refine ⟨rfl, rfl, ?_, ?_⟩
    · intro k hk
      rw [displayed_update_changed]
      exact hin k (key_mem_of_isSome _ _ hk)
    · intro k hk
      rw [displayed_update_changed]
      exact hout k ((dictGet_eq_none_iff _ _).mp hk)

/-! ### Concrete example dialog for witnesses -/

/-- A cut-down version of the demo settings map at the bottom of the
module: one box, one item, a string, an integer and a boolean parameter. -/
def exSettings : Settings :=
  [("Box 1",
    [("Item 1",
      [("Parameter 1", (VRange.strs ["Foo", "Bar", "Baz"], V.str "Foo")),
       ("Parameter 2", (VRange.range 4 20 1, V.int 5)),
       ("Parameter 3", (VRange.none, V.bool true))])])]

/-- The dialog `SettingsDialog.__init__` builds from `exSettings`. -/
def exDialog : SettingsDialog :=
  match mkDialog exSettings with
  | .ok d => d
  | .error _ => { controls := [], widgets := [], changed_settings := [] }

/-- A host widget carrying a `visual_settings` snapshot. -/
def exMaster : Master :=
  { visual_settings := some [(("Box 1", "Item 1", "Parameter 1"),
      V.str "Baz")] }

example : mkDialog exSettings = .ok exDialog := rfl

example : wfDialog exDialog = true := by decide

example : displayed exDialog ("Box 1", "Item 1", "Parameter 2") =
    some (V.int 5) := by decide

/-! ### Claims -/

/-- Claim C2: at construction, the control kind for each parameter is
chosen solely from the default value's runtime type: a string default
yields a combo box over the given items, an integer default yields a spin
box whose minimum, maximum and step are the range's start, stop and step,
a boolean default yields a checkbox, and any other default type raises
`NotImplementedError`. -/
theorem add_control_dispatch :
    (∀ (s : String) (items : List String) (key : Key),
      _add_control (V.str s) (VRange.strs items) key =
        .ok (Control.combo items s)) ∧
    (∀ (n a b st : Int) (key : Key),
      _add_control (V.int n) (VRange.range a b st) key =
        .ok (Control.spin a b st n)) ∧
    (∀ (bv : Bool) (vr : VRange) (key : Key),
      _add_control (V.bool bv) vr key =
        .ok (Control.check (key.2.2 ++ " ") bv)) ∧
    (∀ (t : String) (vr : VRange) (key : Key),
      _add_control (V.other t) vr key = .error CtrlError.notImplemented) := by
  refine ⟨fun s items key => rfl, fun n a b st key => rfl, ?_, ?_⟩
  · intro bv vr key
    cases vr <;> rfl
  · intro t vr key
    cases vr <;> rfl

/-- Claim C5: for every supported default value type, a successfully
constructed control displays exactly the supplied default value. -/
theorem row_control_displays_default (v : V) (vr : VRange) (key : Key)
    (c : Control) (h : _add_control v vr key = .ok c) :
    displayedValue c = v := by
  cases v <;> cases vr <;> simp [_add_control] at h <;> rw [← h] <;> rfl

/-- Witness for C5 at the example string parameter. -/
theorem row_control_displays_default_witness :
    displayedValue (Control.combo ["Foo", "Bar", "Baz"] "Foo") =
      V.str "Foo" :=
  row_control_displays_default (V.str "Foo")
    (VRange.strs ["Foo", "Bar", "Baz"])
    ("Box 1", "Item 1", "Parameter 1") _ rfl

/-- Claim C4: a control change event stores exactly one entry for its key
in the changed-settings map (overwriting any prior entry) and leaves
entries for every other key untouched. -/
theorem on_setting_changed_overwrites (d : SettingsDialog) (k : Key) (v : V)
    (h : countKey d.changed_settings k ≤ 1) :
    countKey (on_setting_changed d k v).changed_settings k = 1 ∧
    dictGet (on_setting_changed d k v).changed_settings k = some v ∧
    ∀ k', k' ≠ k →
      dictGet (on_setting_changed d k v).changed_settings k' =
        dictGet d.changed_settings k' := by
  refine ⟨countKey_dictSet _ _ _ h, dictGet_dictSet_self _ _ _, ?_⟩
  intro k' hk
  exact dictGet_dictSet_ne _ _ _ _ hk

/-- Witness for C4: two successive events on the same key leave exactly
one entry, holding the later value. -/
theorem on_setting_changed_overwrites_witness :
    countKey (on_setting_changed
      (on_setting_changed exDialog ("Box 1", "Item 1", "Parameter 1")
        (V.str "Bar"))
      ("Box 1", "Item 1", "Parameter 1") (V.str "Baz")).changed_settings
      ("Box 1", "Item 1", "Parameter 1") = 1 ∧
    dictGet (on_setting_changed
      (on_setting_changed exDialog ("Box 1", "Item 1", "Parameter 1")
        (V.str "Bar"))
      ("Box 1", "Item 1", "Parameter 1") (V.str "Baz")).changed_settings
      ("Box 1", "Item 1", "Parameter 1") = some (V.str "Baz") := by
  have h := on_setting_changed_overwrites
    (on_setting_changed exDialog ("Box 1", "Item 1", "Parameter 1")
      (V.str "Bar"))
    ("Box 1", "Item 1", "Parameter 1") (V.str "Baz") (by decide)
  exact ⟨h.1, h.2.1⟩

/-- Claim C9: the control registry is never structurally mutated after
construction: `apply_settings`, `__reset` and `__on_setting_changed` all
leave `__controls` exactly as `__initialize` built it (they only write
through the widget handles it stores, or to the changed-settings map). -/
theorem controls_registry_immutable (d : SettingsDialog)
    (pairs : List (Key × V)) (k : Key) (v : V) :
    (apply_settings d pairs).1.controls = d.controls ∧
    (reset d).1.controls = d.controls ∧
    (on_setting_changed d k v).controls = d.controls :=
  ⟨(apply_settings_shape d pairs).1, reset_controls_eq d, rfl⟩

/-- Claim C1: for a well-formed dialog whose changed keys are all
registered (every entry of the changed-settings map originates from a
registered control), `__reset` succeeds, pushes the registered default
value back into every control whose key has a changed-settings entry, and
leaves the changed-settings map empty. -/
theorem reset_restores_defaults_and_clears (d : SettingsDialog)
    (hwf : wfDialog d = true)
    (hch : ∀ p ∈ d.changed_settings, (dictGet d.controls p.1).isSome = true) :
    (reset d).2 = Option.none ∧
    (reset d).1.changed_settings = [] ∧
    ∀ k wid dv, dictGet d.controls k = some (wid, dv) →
      (dictGet d.changed_settings k).isSome = true →
      displayed (reset d).1 k = some dv := by
  obtain ⟨h1, h2, h3, _⟩ := resetSpecAux d hwf hch
  refine ⟨h1, h2, ?_⟩
  intro k wid dv hc hck
  rw [h3 k hck, hc]
  rfl

/-- Witness for C1: edit the integer parameter to 11, reset, and the spin
box shows the registered default 5 again with the changed map emptied. -/
theorem reset_restores_defaults_and_clears_witness :
    (reset (on_setting_changed exDialog ("Box 1", "Item 1", "Parameter 2")
      (V.int 11))).2 = Option.none ∧
    (reset (on_setting_changed exDialog ("Box 1", "Item 1", "Parameter 2")
      (V.int 11))).1.changed_settings = [] ∧
    displayed (reset (on_setting_changed exDialog
      ("Box 1", "Item 1", "Parameter 2") (V.int 11))).1
      ("Box 1", "Item 1", "Parameter 2") = some (V.int 5) := by
  have h := reset_restores_defaults_and_clears
    (on_setting_changed exDialog ("Box 1", "Item 1", "Parameter 2")
      (V.int 11)) (by decide) (by decide)
  exact ⟨h.1, h.2.1,
    h.2.2 ("Box 1", "Item 1", "Parameter 2") 1 (V.int 5)
      (by decide) (by decide)⟩

/-- Claim C3: when every pair addresses a registered control (with a value
of the control's type), `apply_settings` succeeds and pushes every pair's
value into its control in order — the control ends up showing the value of
the last pair for its key.  No hypothesis restricts the values to the
control's allowed range or item list: the loop performs no validation. -/
theorem apply_settings_in_order_no_validation (d : SettingsDialog)
    (pairs : List (Key × V))
    (hwf : wfDialog d = true)
    (hreg : ∀ p ∈ pairs, regCompat d p = true) :
    (apply_settings d pairs).2 = Option.none ∧
    ∀ k, displayed (apply_settings d pairs).1 k =
      overlay (lastVal pairs k) (displayed d k) := by
  obtain ⟨h1, _, h3⟩ := applySpecAux pairs d hwf hreg
  exact ⟨h1, h3⟩

/-- Witness for C3: values far outside the spin range (999 ∉ range 4 20 1)
and outside the combo's item list ("Quux") are pushed unchecked, and the
later of two pairs for the same key wins. -/
theorem apply_settings_in_order_no_validation_witness :
    (apply_settings exDialog
      [(("Box 1", "Item 1", "Parameter 2"), V.int 999),
       (("Box 1", "Item 1", "Parameter 1"), V.str "Quux"),
       (("Box 1", "Item 1", "Parameter 2"), V.int 1000)]).2 =
      Option.none ∧
    displayed (apply_settings exDialog
      [(("Box 1", "Item 1", "Parameter 2"), V.int 999),
       (("Box 1", "Item 1", "Parameter 1"), V.str "Quux"),
       (("Box 1", "Item 1", "Parameter 2"), V.int 1000)]).1
      ("Box 1", "Item 1", "Parameter 2") = some (V.int 1000) ∧
    displayed (apply_settings exDialog
      [(("Box 1", "Item 1", "Parameter 2"), V.int 999),
       (("Box 1", "Item 1", "Parameter 1"), V.str "Quux"),
       (("Box 1", "Item 1", "Parameter 2"), V.int 1000)]).1
      ("Box 1", "Item 1", "Parameter 1") = some (V.str "Quux") := by
  have h := apply_settings_in_order_no_validation exDialog
    [(("Box 1", "Item 1", "Parameter 2"), V.int 999),
     (("Box 1", "Item 1", "Parameter 1"), V.str "Quux"),
     (("Box 1", "Item 1", "Parameter 2"), V.int 1000)]
    (by decide) (by decide)
  exact ⟨h.1,
    (h.2 ("Box 1", "Item 1", "Parameter 2")).trans (by decide),
    (h.2 ("Box 1", "Item 1", "Parameter 1")).trans (by decide)⟩

/-- Claim C6: applying a single registered pair updates only the displayed
value of the control under that key; every other key's displayed value is
unchanged. -/
theorem apply_single_pair_frame (d : SettingsDialog) (k : Key) (v : V)
    (hwf : wfDialog d = true) (hreg : regCompat d (k, v) = true) :
    (apply_settings d [(k, v)]).2 = Option.none ∧
    displayed (apply_settings d [(k, v)]).1 k = some v ∧
    ∀ k', k' ≠ k →
      displayed (apply_settings d [(k, v)]).1 k' = displayed d k' := by
  obtain ⟨h1, _, h3⟩ := applySpecAux [(k, v)] d hwf (by
    intro p hp
    rw [List.mem_singleton] at hp
    subst hp
    exact hreg)
  refine ⟨h1, ?_, ?_⟩
  · rw [h3 k]
    have hlv : lastVal [(k, v)] k = some v := by simp [lastVal]
    rw [hlv]
    rfl
  · intro k' hk
    rw [h3 k']
    have hne : ¬ k = k' := fun h => hk h.symm
    have hlv : lastVal [(k, v)] k' = Option.none := by
      simp [lastVal, hne]
    rw [hlv]
    rfl

/-- Witness for C6: pushing 7 into the integer parameter leaves the string
and boolean parameters showing their defaults. -/
theorem apply_single_pair_frame_witness :
    (apply_settings exDialog
      [(("Box 1", "Item 1", "Parameter 2"), V.int 7)]).2 = Option.none ∧
    displayed (apply_settings exDialog
      [(("Box 1", "Item 1", "Parameter 2"), V.int 7)]).1
      ("Box 1", "Item 1", "Parameter 2") = some (V.int 7) ∧
    displayed (apply_settings exDialog
      [(("Box 1", "Item 1", "Parameter 2"), V.int 7)]).1
      ("Box 1", "Item 1", "Parameter 1") = some (V.str "Foo") ∧
    displayed (apply_settings exDialog
      [(("Box 1", "Item 1", "Parameter 2"), V.int 7)]).1
      ("Box 1", "Item 1", "Parameter 3") = some (V.bool true) := by
  have h := apply_single_pair_frame exDialog
    ("Box 1", "Item 1", "Parameter 2") (V.int 7) (by decide) (by decide)
  exact ⟨h.1, h.2.1,
    (h.2.2 ("Box 1", "Item 1", "Parameter 1") (by decide)).trans (by decide),
    (h.2.2 ("Box 1", "Item 1", "Parameter 3") (by decide)).trans (by decide)⟩

/-- Counterexample to C7 as stated: on a successfully constructed dialog,
`apply_settings` with an unregistered key triple fails with `KeyError`
from `self.__controls[key]` — so construction is not the only operation
that can fail. -/
theorem apply_settings_fails_after_construction_cex :
    mkDialog exSettings = .ok exDialog ∧
    (apply_settings exDialog
      [(("No Box", "No Item", "No Parameter"), V.int 1)]).2 =
      some SetErr.keyError :=
  ⟨rfl, rfl⟩

/-- Claim C7 (amended): an unsupported default-value type raises
`NotImplementedError` at construction time; in addition, `apply_settings`
fails with a key-lookup error (`KeyError`) as soon as it meets a pair
whose key triple is not registered; on registered, type-compatible pairs
it never fails. -/
theorem error_paths_amended :
    (∀ (t : String) (vr : VRange) (key : Key),
      _add_control (V.other t) vr key = .error CtrlError.notImplemented) ∧
    (∀ (d : SettingsDialog) (k : Key) (v : V) (rest : List (Key × V)),
      dictGet d.controls k = Option.none →
      apply_settings d ((k, v) :: rest) = (d, some SetErr.keyError)) ∧
    (∀ (d : SettingsDialog) (pairs : List (Key × V)),
      wfDialog d = true → (∀ p ∈ pairs, regCompat d p = true) →
      (apply_settings d pairs).2 = Option.none) := by
  refine ⟨?_, ?_, ?_⟩
  · intro t vr key
    cases vr <;> rfl
  · intro d k v rest hk
    simp [apply_settings, applyOne, hk]
  · intro d pairs hwf hreg
    exact (applySpecAux pairs d hwf hreg).1

/-- Witness for the amended C7 on the example dialog. -/
theorem error_paths_amended_witness :
    apply_settings exDialog
      [(("No Box", "No Item", "No Parameter"), V.int 1)] =
      (exDialog, some SetErr.keyError) ∧
    (apply_settings exDialog
      [(("Box 1", "Item 1", "Parameter 1"), V.str "Bar")]).2 =
      Option.none := by
  constructor
  · exact error_paths_amended.2.1 exDialog
      ("No Box", "No Item", "No Parameter") (V.int 1) [] (by decide)
  · exact error_paths_amended.2.2 exDialog
      [(("Box 1", "Item 1", "Parameter 1"), V.str "Bar")]
      (by decide) (by decide)

/-- Claim C8: `VisualSettingsDialog.__init__` connects the host's
`set_visual_settings` handler to the change signal for every host; if the
host has a `visual_settings` attribute it applies that snapshot (so the
dialog opens pre-populated: each snapshot key shows its snapshot value),
otherwise the dialog state is exactly the freshly built one; in both
cases the host's `openVisualSettingsClicked` signal is connected to
showing the dialog. -/
theorem visual_dialog_init_spec (master : Master) (settings : Settings)
    (d : SettingsDialog)
    (hd : mkDialog settings = .ok d)
    (hwf : wfDialog d = true) :
    (master.visual_settings = Option.none →
      mkVisualDialog master settings =
        .ok ({ dialog := d, set_visual_settings_connected := true,
               open_clicked_connected := true }, Option.none)) ∧
    (∀ vs, master.visual_settings = some vs →
      (∀ p ∈ vs, regCompat d p = true) →
      ∃ vd : VisualSettingsDialog,
        mkVisualDialog master settings = .ok (vd, Option.none) ∧
        vd.set_visual_settings_connected = true ∧
        vd.open_clicked_connected = true ∧
        ∀ k, displayed vd.dialog k =
          overlay (lastVal vs k) (displayed d k)) := by
  constructor
  · intro hvs
    simp only [mkVisualDialog, hd, hvs]
  · intro vs hvs hreg
    obtain ⟨he, _, hdisp⟩ := applySpecAux vs d hwf hreg
    cases happ : apply_settings d vs with
    | mk d' e =>
      rw [happ] at he hdisp
      simp only [] at he
      subst he
      refine ⟨{ dialog := d', set_visual_settings_connected := true,
                open_clicked_connected := true }, ?_, rfl, rfl, ?_⟩
      · simp only [mkVisualDialog, hd, hvs, happ]
      · intro k
        exact hdisp k

/-- Witness for C8: a host without a snapshot gets both connections and
the untouched dialog; a host whose snapshot sets the string parameter to
"Baz" gets both connections and a dialog opening on "Baz". -/
theorem visual_dialog_init_spec_witness :
    mkVisualDialog ({ visual_settings := Option.none } : Master)
      exSettings =
      .ok ({ dialog := exDialog, set_visual_settings_connected := true,
             open_clicked_connected := true }, Option.none) ∧
    ∃ vd : VisualSettingsDialog,
      mkVisualDialog exMaster exSettings = .ok (vd, Option.none) ∧
      vd.set_visual_settings_connected = true ∧
      vd.open_clicked_connected = true ∧
      displayed vd.dialog ("Box 1", "Item 1", "Parameter 1") =
        some (V.str "Baz") := by
  constructor
  · exact (visual_dialog_init_spec
      ({ visual_settings := Option.none } : Master) exSettings exDialog
      rfl (by decide)).1 rfl
  · obtain ⟨vd, h1, h2, h3, h4⟩ := (visual_dialog_init_spec exMaster
      exSettings exDialog rfl (by decide)).2
      [(("Box 1", "Item 1", "Parameter 1"), V.str "Baz")] rfl (by decide)
    exact ⟨vd, h1, h2, h3,
      (h4 ("Box 1", "Item 1", "Parameter 1")).trans (by decide)⟩

/-- Claim C10: `apply_settings` is not atomic: if the pairs up to some
point are registered and the next pair's key is unregistered, the call
stops with `KeyError` exactly there, and the state returned is the one the
earlier pairs already produced (their controls show the applied values;
nothing is rolled back). -/
theorem apply_settings_nonatomic (d : SettingsDialog)
    (good : List (Key × V)) (k : Key) (v : V) (rest : List (Key × V))
    (hwf : wfDialog d = true)
    (hgood : ∀ p ∈ good, regCompat d p = true)
    (hk : dictGet d.controls k = Option.none) :
    apply_settings d (good ++ (k, v) :: rest) =
      ((apply_settings d good).1, some SetErr.keyError) ∧
    ∀ k', displayed (apply_settings d good).1 k' =
      overlay (lastVal good k') (displayed d k') := by
  obtain ⟨he, _, hdisp⟩ := applySpecAux good d hwf hgood
  have happ := apply_settings_append d good ((k, v) :: rest) he
  have hctrl := (apply_settings_shape d good).1
  have hfail : apply_settings (apply_settings d good).1 ((k, v) :: rest) =
      ((apply_settings d good).1, some SetErr.keyError) := by
    have hk' : dictGet (apply_settings d good).1.controls k =
        Option.none := by
      rw [hctrl]
      exact hk
    simp [apply_settings, applyOne, hk']
  exact ⟨happ.trans hfail, hdisp⟩

/-- Witness for C10: the first pair is applied (the spin box shows 7), the
second pair's unregistered key stops the call with `KeyError`, and the
applied update is not rolled back. -/
theorem apply_settings_nonatomic_witness :
    apply_settings exDialog
      [(("Box 1", "Item 1", "Parameter 2"), V.int 7),
       (("No Box", "No Item", "No Parameter"), V.bool true)] =
      ((apply_settings exDialog
        [(("Box 1", "Item 1", "Parameter 2"), V.int 7)]).1,
       some SetErr.keyError) ∧
    displayed (apply_settings exDialog
      [(("Box 1", "Item 1", "Parameter 2"), V.int 7)]).1
      ("Box 1", "Item 1", "Parameter 2") = some (V.int 7) := by
  have h := apply_settings_nonatomic exDialog
    [(("Box 1", "Item 1", "Parameter 2"), V.int 7)]
    ("No Box", "No Item", "No Parameter") (V.bool true) []
    (by decide) (by decide) (by decide)
  exact ⟨h.1, (h.2 ("Box 1", "Item 1", "Parameter 2")).trans (by decide)⟩
